import Mathlib

/-!
Verification development for the cozard contention-experiment scripts.

The definitions below are a shallow embedding of the Python sources:
  - `MetricsRecorder` state machine from src/scripts/monitor_webrtc.py
    (frame handler `update` and periodic `log_periodically` tick);
  - `PerformanceMonitor.onFrame` from src/scripts/monitor_receiver.py
    (stall classification over a frame-arrival sequence);
  - the per-phase metric reduction and cross-phase report computations
    from src/scripts/run_experiment_only.py (`run_experiment`).

Python floats are embedded as rationals; a float that may be NaN is
embedded as `Option ℚ` with `none` standing for NaN.  Fallible steps
(log download and parse) are embedded as `Option` inputs.
-/

namespace Cozard

/-! ## MetricsRecorder (src/scripts/monitor_webrtc.py) -/

/-- State of `MetricsRecorder`: the fields mutated by `update` and
`log_periodically` in monitor_webrtc.py (times in seconds, as rationals). -/
structure RecorderState where
  started : Bool
  lastFrameTime : Option ℚ
  framesReceived : ℕ
  lastBytesReceived : ℕ
  stalls : ℕ
  totalStallDuration : ℚ
  deriving Repr, DecidableEq

def RecorderState.base : RecorderState :=
  { started := false, lastFrameTime := none, framesReceived := 0,
    lastBytesReceived := 0, stalls := 0, totalStallDuration := 0 }

/-- Stall threshold hard-coded in `MetricsRecorder.update`: 0.2 seconds. -/
def recorderStallThreshold : ℚ := 1/5

/-- `MetricsRecorder.update` (monitor_webrtc.py lines 37-56): called once per
received frame at wall-clock time `now`.  Sets the lazy-start flag; on the
first call only records the arrival time and returns; otherwise increments
the window frame counter and classifies a stall when the inter-frame time
exceeds 0.2 s. -/
def MetricsRecorder.update (s : RecorderState) (now : ℚ) : RecorderState :=
  let s1 : RecorderState := { s with started := true }
  match s1.lastFrameTime with
  | none => { s1 with lastFrameTime := some now }
  | some t =>
      let d := now - t
      let s2 : RecorderState := { s1 with framesReceived := s1.framesReceived + 1 }
      let s3 : RecorderState :=
        if recorderStallThreshold < d then
          { s2 with stalls := s2.stalls + 1,
                    totalStallDuration := s2.totalStallDuration + d }
        else s2
      { s3 with lastFrameTime := some now }

/-- The WebRTC stats visible to `log_periodically`: byte counters of the
inbound-rtp and transport reports and the inbound packet count. -/
structure RtcStats where
  inboundBytes : ℕ
  transportBytes : ℕ
  inboundPackets : ℕ
  deriving Repr, DecidableEq

/-- The byte-counter resolution strategies of `log_periodically`
(monitor_webrtc.py lines 69-97): inbound-rtp bytes if positive, else
transport bytes if positive, else a packet-based estimate (1200 bytes per
packet) when frames arrived, else 0. -/
def resolveBytes (st : RtcStats) (fps : ℕ) : ℕ :=
  if 0 < st.inboundBytes then st.inboundBytes
  else if 0 < st.transportBytes then st.transportBytes
  else if 0 < fps ∧ 0 < st.inboundPackets then st.inboundPackets * 1200
  else 0

/-- One CSV row written by `log_periodically`:
timestamp, fps, stall_duration_ms, bitrate_mbps. -/
structure QualitySnapshot where
  timestamp : ℚ
  fps : ℕ
  stallMs : ℚ
  bitrateMbps : ℚ
  deriving Repr, DecidableEq

/-- One iteration of `MetricsRecorder.log_periodically`
(monitor_webrtc.py lines 58-129) at wall-clock time `now`, with recorder
start time `startTime` and current stats `st`.  Before the first frame
(`started` still false) the iteration is skipped and no row is written;
afterwards one row is always written and the window counters are reset. -/
def MetricsRecorder.tick (s : RecorderState) (st : RtcStats) (now startTime : ℚ) :
    RecorderState × Option QualitySnapshot :=
  if s.started = false then (s, none)
  else
    let fps := s.framesReceived
    let cur := resolveBytes st fps
    let bitrate : ℚ :=
      if 0 < s.lastBytesReceived then
        ((cur : ℚ) - (s.lastBytesReceived : ℚ)) * 8 / 1000000
      else 0
    let snap : QualitySnapshot :=
      { timestamp := now - startTime, fps := fps,
        stallMs := s.totalStallDuration * 1000, bitrateMbps := bitrate }
    ({ s with lastBytesReceived := cur, framesReceived := 0,
              stalls := 0, totalStallDuration := 0 }, some snap)

/-- Feeding a list of frame-arrival times through `MetricsRecorder.update`
starting from the fresh recorder state. -/
def processFrames (ts : List ℚ) : RecorderState :=
  ts.foldl MetricsRecorder.update RecorderState.base

/-! ## PerformanceMonitor (src/scripts/monitor_receiver.py) -/

/-- One entry of `PerformanceMonitor.stall_events`
(monitor_receiver.py lines 66-70). -/
structure StallEvent where
  time : ℚ
  durationMs : ℚ
  frame : ℕ
  deriving Repr, DecidableEq

/-- State of `PerformanceMonitor` relevant to stall classification:
`start_time`, `last_frame_time`, `frame_count`, `stall_events`. -/
structure PMState where
  startTime : ℚ
  lastFrameTime : Option ℚ
  frameCount : ℕ
  stallEvents : List StallEvent
  deriving Repr, DecidableEq

def PMState.base (startTime : ℚ) : PMState :=
  { startTime := startTime, lastFrameTime := none, frameCount := 0, stallEvents := [] }

/-- `PerformanceMonitor.on_frame` (monitor_receiver.py lines 50-73) restricted
to its stall-classification effect, with the hard-coded 100 ms threshold made
a parameter `thresholdMs` (the spec treats the threshold as configurable).
The frame counter is incremented first; a stall is classified only when a
previous arrival time exists and the inter-frame delta in milliseconds
exceeds the threshold. -/
def PerformanceMonitor.onFrame (thresholdMs : ℚ) (s : PMState) (now : ℚ) : PMState :=
  let fc := s.frameCount + 1
  match s.lastFrameTime with
  | none => { s with lastFrameTime := some now, frameCount := fc }
  | some t =>
      let deltaMs := (now - t) * 1000
      if thresholdMs < deltaMs then
        { s with lastFrameTime := some now, frameCount := fc,
                 stallEvents := s.stallEvents ++
                   [{ time := now - s.startTime, durationMs := deltaMs, frame := fc }] }
      else
        { s with lastFrameTime := some now, frameCount := fc }

/-- The stall set produced by feeding a frame-arrival sequence through
`PerformanceMonitor.on_frame` with stall threshold `thresholdMs`. -/
def stallSet (thresholdMs startTime : ℚ) (times : List ℚ) : List StallEvent :=
  (times.foldl (PerformanceMonitor.onFrame thresholdMs) (PMState.base startTime)).stallEvents

/-! ## Per-phase metric reduction (src/scripts/run_experiment_only.py) -/

/-- Interface-layer throughput (run_experiment_only.py line 386):
`total_mbps = (end_bytes - start_bytes) * 8 / (40 * 1_000_000)`. -/
def interfaceMbps (startBytes endBytes : ℕ) : ℚ :=
  ((endBytes : ℚ) - (startBytes : ℚ)) * 8 / (40 * 1000000)

/-- Competing-flow throughput (run_experiment_only.py lines 442-447): the
mean of the parsed iperf3 rates, or NaN (`none`) when no rates were parsed. -/
def attackThroughput (rates : List ℚ) : Option ℚ :=
  match rates with
  | [] => none
  | rs => some (rs.sum / (rs.length : ℚ))

/-- Derived game throughput before the CSV override
(run_experiment_only.py line 455): `max(0, total_mbps - attack_throughput)`.
Python's `max(0, x)` returns 0 when `x` is NaN, since `nan > 0` is false. -/
def fallbackGameMbps (total : ℚ) (attack : Option ℚ) : ℚ :=
  match attack with
  | none => 0
  | some a => max 0 (total - a)

/-- One row of the downloaded per-phase metrics CSV
(fields fps, stall_duration_ms and, when the column exists, bitrate_mbps). -/
structure MetricsRow where
  fps : ℚ
  stallMs : ℚ
  bitrateMbps : ℚ
  deriving Repr, DecidableEq

/-- The downloaded metrics CSV: whether the bitrate_mbps column is present
in the header, and the parsed rows. -/
structure MetricsCSV where
  hasBitrateCol : Bool
  rows : List MetricsRow
  deriving Repr, DecidableEq

/-- The per-phase quality fields (run_experiment_only.py lines 457-478):
`r_avg_fps` and `r_stall_time` are initialised to 0; when the download and
parse succeed (`some`) and the row list is nonempty, they become the mean
fps and the summed stall time.  A failed download or parse (`none`) and an
empty log both leave the zeros in place.  The codomain embeds Python floats
with `none` for NaN; this code never produces NaN. -/
def phaseQualityFields (csv : Option MetricsCSV) : Option ℚ × Option ℚ :=
  match csv with
  | none => (some 0, some 0)
  | some m =>
      match m.rows with
      | [] => (some 0, some 0)
      | r :: rs =>
          (some (((r :: rs).map MetricsRow.fps).sum / ((r :: rs).length : ℚ)),
           some (((r :: rs).map MetricsRow.stallMs).sum))

/-- The per-phase game throughput `game_mbps`
(run_experiment_only.py lines 455 and 465-476): starts as
`max(0, total_mbps - attack_throughput)` and is overwritten by the mean of
the CSV bitrate_mbps column exactly when the CSV was read, has rows and
carries that column. -/
def gameMbps (startBytes endBytes : ℕ) (attack : Option ℚ) (csv : Option MetricsCSV) :
    Option ℚ :=
  let fb := fallbackGameMbps (interfaceMbps startBytes endBytes) attack
  match csv with
  | none => some fb
  | some m =>
      match m.rows with
      | [] => some fb
      | r :: rs =>
          if m.hasBitrateCol then
            some (((r :: rs).map MetricsRow.bitrateMbps).sum / ((r :: rs).length : ℚ))
          else some fb

/-- Jain fairness formula as computed at run_experiment_only.py line 506:
`(total_t ** 2) / (2 * sum_sq)` with `total_t = game + attack` and
`sum_sq = game ** 2 + attack ** 2`. -/
def jain (a b : ℚ) : ℚ := (a + b) ^ 2 / (2 * (a ^ 2 + b ^ 2))

/-- The per-phase fairness index `j_index`
(run_experiment_only.py lines 480-506).  It is initialised to NaN and only
recomputed inside the `if phase[attack]` branch: there it stays NaN when
either throughput is NaN, is 1.0 when the competing throughput equals 0,
is NaN when the total or the sum of squares is non-positive, and is the
Jain formula otherwise.  For a phase without competing flow the branch is
skipped and the index remains NaN. -/
def jIndex (hasAttack : Bool) (game attack : Option ℚ) : Option ℚ :=
  if hasAttack then
    match game, attack with
    | some g, some a =>
        if a = 0 then some 1
        else if g + a ≤ 0 ∨ g ^ 2 + a ^ 2 ≤ 0 then none
        else some (jain g a)
    | _, _ => none
  else none

/-! ## Cross-phase report (src/scripts/run_experiment_only.py lines 532-552) -/

/-- Harm factor (run_experiment_only.py lines 545-549): the ratio of the
contention stall time to the baseline stall time when the baseline stall
time is positive; the 999.0 sentinel when only the contention stall time is
positive; 0 otherwise.  Every division is guarded, so the computation never
raises. -/
def harmFactor (baselineStallMs contentionStallMs : ℚ) : ℚ :=
  if 0 < baselineStallMs then contentionStallMs / baselineStallMs
  else if 0 < contentionStallMs then 999 else 0

/-- Relative fps drop (run_experiment_only.py line 538):
`(baseline - contention) / baseline` when the baseline fps is positive,
else 0. -/
def fpsDrop (baselineFps contentionFps : ℚ) : ℚ :=
  if 0 < baselineFps then (baselineFps - contentionFps) / baselineFps else 0

/-- Degradation verdict (run_experiment_only.py line 539):
true when the relative fps drop exceeds 0.3 or the contention stall time
exceeds 1000 ms. -/
def degradationDetected (baselineFps contentionFps contentionStallMs : ℚ) : Bool :=
  if 3/10 < fpsDrop baselineFps contentionFps ∨ 1000 < contentionStallMs then true
  else false

/-! ## Phase loop control flow (src/scripts/run_experiment_only.py 292-530)

The phase loop sits inside a single try/finally: the `finally` block (the
process cleanup) always runs, and the final report is written after it only
when no phase raised.  A phase execution is embedded as `Option R`: `some r`
when the phase body completes with result `r`, `none` when it raises an
exception that is not caught inside the body. -/

/-- The for-loop over phases: returns the collected results, the number of
phases entered, and whether an exception escaped the loop. -/
def runLoop {R : Type} : List (Option R) → List R × ℕ × Bool
  | [] => ([], 0, false)
  | none :: _ => ([], 1, true)
  | some r :: rest =>
      let out := runLoop rest
      (r :: out.1, out.2.1 + 1, out.2.2)

/-- Outcome of `run_experiment`: per-phase results appended, whether the
cleanup in the `finally` block ran, and whether the final per-phase report
was written (code after the try/finally, unreachable when a phase raised). -/
structure RunTrace (R : Type) where
  results : List R
  executedCount : ℕ
  cleanupRan : Bool
  reportWritten : Bool
  deriving Repr, DecidableEq

/-- The try/for/finally structure of `run_experiment`
(run_experiment_only.py lines 292-530). -/
def runPhases {R : Type} (phases : List (Option R)) : RunTrace R :=
  let out := runLoop phases
  { results := out.1, executedCount := out.2.1, cleanupRan := true,
    reportWritten := out.2.2 = false }

/-! ## Theorems -/

/-- Claim C1: evaluation of the fairness-index computation at the failing
input.  A phase without competing flow (hasAttack = false, the attack
throughput variable still 0.0) yields a NaN fairness index, not the 1.0 the
claim states: the 1.0 special case sits inside the `if phase[attack]` branch
and is unreachable for such a phase.  The NaN behaviour for a competing-flow
phase with zero parsed throughput samples does hold. -/
theorem claim1_no_attack_fairness_is_nan :
    jIndex false (some 10) (some 0) = none ∧
    jIndex false (some 10) (some 0) ≠ some 1 ∧
    attackThroughput [] = none ∧
    jIndex true (some 10) (attackThroughput []) = none := by
  refine ⟨rfl, ?_, rfl, rfl⟩
  intro h
  exact Option.noConfusion h

/-- Claim C2 counterexample: when the metrics download fails (`none`), the
phase quality fields are the zeros they were initialised to, not NaN
sentinels, and they coincide with the fields of a phase that genuinely
measured zero fps and zero stall time. -/
theorem claim2_counterexample :
    phaseQualityFields none = (some 0, some 0) ∧
    (phaseQualityFields none).1 ≠ none ∧
    (phaseQualityFields none).2 ≠ none ∧
    phaseQualityFields (some ⟨true, [⟨0, 0, 0⟩]⟩) = (some 0, some 0) := by
  refine ⟨rfl, ?_, ?_, ?_⟩
  · intro h; exact Option.noConfusion h
  · intro h; exact Option.noConfusion h
  · simp [phaseQualityFields]

/-- Claim C2 amended: whenever downloading a phase metrics log fails or the
downloaded log is empty, that phase's average fps and total stall time are
left at 0.0, so such a phase is indistinguishable from one that measured
zero. -/
theorem claim2_amended_zero_fields :
    phaseQualityFields none = (some 0, some 0) ∧
    phaseQualityFields (some ⟨true, []⟩) = (some 0, some 0) ∧
    phaseQualityFields (some ⟨false, []⟩) = (some 0, some 0) :=
  ⟨rfl, rfl, rfl⟩

/-- Claim C6: the cross-phase harm factor is the stall-time ratio when the
baseline stall time is nonzero (stall times are nonnegative), the 999
sentinel when only the contention stall time is nonzero, and 0 when both are
zero; the computing function is total, so the computation never throws. -/
theorem claim6_harm_factor_cases (b w : ℚ) :
    (0 ≤ b → b ≠ 0 → harmFactor b w = w / b) ∧
    (b = 0 → 0 ≤ w → w ≠ 0 → harmFactor b w = 999) ∧
    (b = 0 → w = 0 → harmFactor b w = 0) := by
  refine ⟨fun hb hb0 => ?_, fun hb hw hw0 => ?_, fun hb hw => ?_⟩
  · have : 0 < b := lt_of_le_of_ne hb (Ne.symm hb0)
    simp [harmFactor, this]
  · have : 0 < w := lt_of_le_of_ne hw (Ne.symm hw0)
    simp [harmFactor, hb, this]
  · simp [harmFactor, hb, hw]

/-- Claim C6 witness: with baseline stall 100 ms and contention stall 500 ms
the harm factor is the ratio 500 / 100 = 5. -/
theorem claim6_harm_factor_witness :
    (0:ℚ) ≤ 100 ∧ (100:ℚ) ≠ 0 ∧ harmFactor 100 500 = 500 / 100 :=
  ⟨by norm_num, by norm_num, (claim6_harm_factor_cases 100 500).1 (by norm_num) (by norm_num)⟩

/-- Claim C7: for a positive baseline fps, the degradation verdict holds
exactly when the relative fps drop exceeds 0.3 or the contention stall time
exceeds 1000 ms; in particular it fires for the 60 → 40 fps drop and not for
equal fps with zero stall. -/
theorem claim7_degradation_iff :
    (∀ b c s : ℚ, 0 < b →
      (degradationDetected b c s = true ↔ (3/10 < (b - c) / b ∨ 1000 < s))) ∧
    degradationDetected 60 40 500 = true ∧
    degradationDetected 60 60 0 = false := by
  refine ⟨fun b c s hb => ?_, ?_, ?_⟩
  · unfold degradationDetected fpsDrop
    rw [if_pos hb]
    by_cases h : 3/10 < (b - c) / b ∨ 1000 < s
    · simp [h]
    · simp [h]
  · norm_num [degradationDetected, fpsDrop]
  · norm_num [degradationDetected, fpsDrop]

/-- Claim C7 witness: instantiation at baseline fps 60, contention fps 40,
contention stall 500 ms. -/
theorem claim7_degradation_witness :
    (0:ℚ) < 60 ∧
    (degradationDetected 60 40 500 = true ↔
      (3/10 < ((60:ℚ) - 40) / 60 ∨ 1000 < (500:ℚ))) :=
  ⟨by norm_num, claim7_degradation_iff.1 60 40 500 (by norm_num)⟩

/-- Claim C8 counterexample: for throughputs 5 and 35 the code's Jain value
is 16/25 = 0.64, which is more than 0.1 below the 0.78 the claim states. -/
theorem claim8_counterexample :
    jain 5 35 = 16/25 ∧ (16:ℚ)/25 + 1/10 < 78/100 := by
  constructor
  · norm_num [jain]
  · norm_num

/-- Claim C8 amended: for two positive throughputs the Jain value lies in
[0.5, 1], equals exactly 1 when the throughputs are equal (e.g. 20 and 20),
and equals 0.64 for throughputs 5 and 35. -/
theorem claim8_amended_jain_bounds :
    (∀ a b : ℚ, 0 < a → 0 < b →
      1/2 ≤ jain a b ∧ jain a b ≤ 1 ∧ (a = b → jain a b = 1)) ∧
    jain 20 20 = 1 ∧ jain 5 35 = 16/25 := by
  refine ⟨fun a b ha hb => ?_, by norm_num [jain], by norm_num [jain]⟩
  have hd : (0:ℚ) < 2 * (a ^ 2 + b ^ 2) := by positivity
  refine ⟨?_, ?_, fun hab => ?_⟩
  · rw [jain, le_div_iff₀ hd]
    nlinarith [mul_pos ha hb]
  · rw [jain, div_le_one hd]
    nlinarith [sq_nonneg (a - b)]
  · subst hab
    rw [jain, div_eq_one_iff_eq (ne_of_gt hd)]
    ring

/-- Claim C8 witness: instantiation at equal throughputs 20 and 20, where
the Jain value is exactly 1. -/
theorem claim8_amended_witness :
    (0:ℚ) < 20 ∧ jain 20 20 = 1 :=
  ⟨by norm_num, (claim8_amended_jain_bounds.1 20 20 (by norm_num) (by norm_num)).2.2 rfl⟩

/-- Claim C3 counterexample: for an attack phase with no usable metrics CSV,
interface throughput 10 Mbps and competing throughput 4 Mbps, the code's
fallback app throughput is 6 Mbps, not the 10 Mbps interface figure the
claim states. -/
theorem claim3_counterexample :
    gameMbps 0 50000000 (some 4) none = some 6 ∧
    interfaceMbps 0 50000000 = 10 ∧
    (6:ℚ) ≠ 10 := by
  refine ⟨?_, ?_, by norm_num⟩
  · show some (fallbackGameMbps (interfaceMbps 0 50000000) (some 4)) = some 6
    norm_num [fallbackGameMbps, interfaceMbps]
  · norm_num [interfaceMbps]

/-- Claim C3 amended: the app throughput is the mean of the CSV bitrate
column whenever the CSV was read, has rows and carries that column; in every
other case it is `max(0, interfaceMbps - competingThroughput)` (0 when the
competing throughput is NaN), which reduces to the interface figure only
when the competing throughput is 0 and the interface figure nonnegative. -/
theorem claim3_amended_app_throughput :
    (∀ (sB eB : ℕ) (attack : Option ℚ) (m : MetricsCSV),
      m.hasBitrateCol = true → m.rows ≠ [] →
      gameMbps sB eB attack (some m) =
        some ((m.rows.map MetricsRow.bitrateMbps).sum / (m.rows.length : ℚ))) ∧
    (∀ (sB eB : ℕ) (attack : Option ℚ) (csv : Option MetricsCSV),
      (csv = none ∨ ∃ m, csv = some m ∧ (m.hasBitrateCol = false ∨ m.rows = [])) →
      gameMbps sB eB attack csv =
        some (fallbackGameMbps (interfaceMbps sB eB) attack)) ∧
    (∀ t a : ℚ, fallbackGameMbps t (some a) = max 0 (t - a)) ∧
    (∀ t : ℚ, fallbackGameMbps t none = 0) := by
  refine ⟨fun sB eB attack m hcol hrows => ?_, fun sB eB attack csv hcase => ?_,
    fun t a => rfl, fun t => rfl⟩
  · obtain ⟨b, rows⟩ := m
    cases rows with
    | nil => exact absurd rfl hrows
    | cons r rs => simp_all [gameMbps]
  · rcases hcase with h | ⟨m, hm, hbad⟩
    · subst h; rfl
    · subst hm
      obtain ⟨b, rows⟩ := m
      rcases hbad with hb | hr
      · cases rows with
        | nil => rfl
        | cons r rs => simp_all [gameMbps]
      · simp only at hr
        subst hr
        rfl

/-- Claim C3 witness: a CSV with the bitrate column and one row of bitrate 3
yields app throughput 3 (the mean of the column). -/
theorem claim3_amended_witness :
    (MetricsCSV.mk true [⟨1, 2, 3⟩]).hasBitrateCol = true ∧
    (MetricsCSV.mk true [⟨1, 2, 3⟩]).rows ≠ [] ∧
    gameMbps 0 0 none (some (MetricsCSV.mk true [⟨1, 2, 3⟩])) =
      some (((MetricsCSV.mk true [⟨1, 2, 3⟩]).rows.map MetricsRow.bitrateMbps).sum /
        (((MetricsCSV.mk true [⟨1, 2, 3⟩]).rows.length : ℚ))) := by
  refine ⟨rfl, by simp, ?_⟩
  exact claim3_amended_app_throughput.1 0 0 none (MetricsCSV.mk true [⟨1, 2, 3⟩]) rfl (by simp)

/-! Helper lemmas about the phase loop. -/

theorem runLoop_no_abort_iff {R : Type} :
    ∀ ps : List (Option R), (runLoop ps).2.2 = false ↔ ∀ p ∈ ps, p ≠ none := by
  intro ps
  induction ps with
  | nil => simp [runLoop]
  | cons p rest ih =>
      cases p with
      | none => simp [runLoop]
      | some r => simpa [runLoop] using ih

theorem runLoop_count_all_ok {R : Type} :
    ∀ ps : List (Option R), (∀ p ∈ ps, p ≠ none) → (runLoop ps).2.1 = ps.length := by
  intro ps
  induction ps with
  | nil => intro _; rfl
  | cons p rest ih =>
      intro hall
      cases p with
      | none => exact absurd rfl (hall none (by simp))
      | some r =>
          have := ih (fun q hq => hall q (by simp [hq]))
          simp [runLoop, this]

theorem runLoop_count_first_fail {R : Type} :
    ∀ (pre post : List (Option R)), (∀ p ∈ pre, p ≠ none) →
      (runLoop (pre ++ none :: post)).2.1 = pre.length + 1 := by
  intro pre
  induction pre with
  | nil => intro post _; rfl
  | cons p rest ih =>
      intro post hall
      cases p with
      | none => exact absurd rfl (hall none (by simp))
      | some r =>
          have := ih post (fun q hq => hall q (by simp [hq]))
          simp [runLoop, this]

/-- Claim C4 counterexample: in a three-phase run whose first phase raises,
only that phase is entered, the later phases never execute, and the final
per-phase report is not written (the cleanup does run). -/
theorem claim4_counterexample :
    (runPhases [none, some (1:ℚ), some 2]).executedCount = 1 ∧
    (runPhases [none, some (1:ℚ), some 2]).executedCount ≠ 3 ∧
    (runPhases [none, some (1:ℚ), some 2]).reportWritten = false ∧
    (runPhases [none, some (1:ℚ), some 2]).cleanupRan = true := by
  refine ⟨rfl, by decide, rfl, rfl⟩

/-- Claim C4 amended: the cleanup in the finally block always runs, but a
failure inside one phase aborts the rest of the run: the report is written
exactly when no phase raised, all phases execute exactly when none raises,
and a run whose first raising phase is preceded by `pre` executes only
`pre.length + 1` phases. -/
theorem claim4_amended_phase_loop :
    (∀ ps : List (Option ℚ), (runPhases ps).cleanupRan = true) ∧
    (∀ ps : List (Option ℚ),
      ((runPhases ps).reportWritten = true ↔ ∀ p ∈ ps, p ≠ none)) ∧
    (∀ ps : List (Option ℚ), (∀ p ∈ ps, p ≠ none) →
      (runPhases ps).executedCount = ps.length) ∧
    (∀ pre post : List (Option ℚ), (∀ p ∈ pre, p ≠ none) →
      (runPhases (pre ++ none :: post)).executedCount = pre.length + 1) := by
  refine ⟨fun ps => rfl, fun ps => ?_, fun ps hall => ?_, fun pre post hall => ?_⟩
  · simpa [runPhases, decide_eq_true_eq] using runLoop_no_abort_iff ps
  · simpa [runPhases] using runLoop_count_all_ok ps hall
  · simpa [runPhases] using runLoop_count_first_fail pre post hall

/-- Claim C4 witness: a run with one successful phase followed by a raising
phase executes exactly two phases. -/
theorem claim4_amended_witness :
    (∀ p ∈ [some (1:ℚ)], p ≠ none) ∧
    (runPhases ([some (1:ℚ)] ++ none :: ([] : List (Option ℚ)))).executedCount = 2 := by
  refine ⟨by simp, ?_⟩
  exact claim4_amended_phase_loop.2.2.2 [some 1] [] (by simp)

/-- Claim C5 counterexample: a tick of the fresh monitor, before any frame
has arrived (so zero frames since the previous tick), emits no snapshot at
all: the loop body is skipped while the lazy-start flag is unset, rather
than emitting a zero snapshot. -/
theorem claim5_counterexample :
    RecorderState.base.framesReceived = 0 ∧
    (MetricsRecorder.tick RecorderState.base ⟨0, 0, 0⟩ 5 0).2 = none :=
  ⟨rfl, rfl⟩

/-- Claim C5 amended: once the first frame has been received, every tick
emits exactly one snapshot and never errors; its framesInWindow equals the
window frame counter (0 when no frames arrived since the previous tick) and
its bitrate is 0 whenever no byte counter had been seen yet or the resolved
byte counter is unchanged (as after a source disconnect).  Ticks before the
first frame emit no snapshot. -/
theorem claim5_amended_tick :
    ∀ (s : RecorderState) (st : RtcStats) (now st0 : ℚ),
      (s.started = false → (MetricsRecorder.tick s st now st0).2 = none) ∧
      (s.started = true → ∃ snap,
        (MetricsRecorder.tick s st now st0).2 = some snap ∧
        snap.fps = s.framesReceived ∧
        snap.stallMs = s.totalStallDuration * 1000 ∧
        ((s.lastBytesReceived = 0 ∨ resolveBytes st s.framesReceived = s.lastBytesReceived) →
          snap.bitrateMbps = 0)) := by
  intro s st now st0
  constructor
  · intro h
    simp [MetricsRecorder.tick, h]
  · intro h
    refine ⟨{ timestamp := now - st0, fps := s.framesReceived,
              stallMs := s.totalStallDuration * 1000,
              bitrateMbps := if 0 < s.lastBytesReceived then
                  ((resolveBytes st s.framesReceived : ℚ) - (s.lastBytesReceived : ℚ)) * 8 / 1000000
                else 0 }, ?_, rfl, rfl, ?_⟩
    · simp [MetricsRecorder.tick, h]
    · intro hcase
      simp only
      rcases hcase with h0 | heq
      · simp [h0]
      · rw [heq]
        by_cases hpos : 0 < s.lastBytesReceived
        · rw [if_pos hpos]; ring
        · rw [if_neg hpos]

/-- Claim C5 witness: a started monitor with zero frames in the window and an
unchanged byte counter emits a snapshot with fps 0 and bitrate 0 on its next
tick. -/
theorem claim5_amended_witness :
    (RecorderState.mk true (some 1) 0 500 0 0).started = true ∧
    ∃ snap,
      (MetricsRecorder.tick (RecorderState.mk true (some 1) 0 500 0 0) ⟨500, 0, 0⟩ 10 0).2 =
        some snap ∧ snap.fps = 0 ∧ snap.bitrateMbps = 0 := by
  refine ⟨rfl, ?_⟩
  obtain ⟨snap, h1, h2, h3, h4⟩ :=
    (claim5_amended_tick (RecorderState.mk true (some 1) 0 500 0 0) ⟨500, 0, 0⟩ 10 0).2 rfl
  exact ⟨snap, h1, h2, h4 (Or.inr rfl)⟩

/-! Helper lemmas about the frame handler. -/

theorem update_after_first (s : RecorderState) (t : ℚ) (h : s.lastFrameTime.isSome) :
    (MetricsRecorder.update s t).framesReceived = s.framesReceived + 1 ∧
    (MetricsRecorder.update s t).lastFrameTime = some t := by
  obtain ⟨u, hu⟩ := Option.isSome_iff_exists.mp h
  unfold MetricsRecorder.update
  simp only [hu]
  split <;> simp

theorem foldl_update_count :
    ∀ (ts : List ℚ) (s : RecorderState), s.lastFrameTime.isSome →
      (ts.foldl MetricsRecorder.update s).framesReceived = s.framesReceived + ts.length := by
  intro ts
  induction ts with
  | nil => intro s _; simp
  | cons t rest ih =>
      intro s hs
      obtain ⟨h1, h2⟩ := update_after_first s t hs
      have hs2 : (MetricsRecorder.update s t).lastFrameTime.isSome := by
        rw [h2]; rfl
      calc ((t :: rest).foldl MetricsRecorder.update s).framesReceived
          = (rest.foldl MetricsRecorder.update (MetricsRecorder.update s t)).framesReceived := by
            simp
        _ = (MetricsRecorder.update s t).framesReceived + rest.length := ih _ hs2
        _ = s.framesReceived + 1 + rest.length := by rw [h1]
        _ = s.framesReceived + (t :: rest).length := by simp; omega

/-- Claim C10: a call of the frame handler with no previous arrival time
records only the arrival time (and the lazy-start flag): the window frame
counter, stall counter and accumulated stall duration are unchanged, so the
first observed frame never contributes a stall; consequently a run over a
nonempty frame sequence counts one fewer frame than arrived (the first
window's fps misses the first frame). -/
theorem claim10_first_frame_excluded :
    (∀ (s : RecorderState) (t : ℚ), s.lastFrameTime = none →
      (MetricsRecorder.update s t).framesReceived = s.framesReceived ∧
      (MetricsRecorder.update s t).stalls = s.stalls ∧
      (MetricsRecorder.update s t).totalStallDuration = s.totalStallDuration ∧
      (MetricsRecorder.update s t).lastFrameTime = some t ∧
      (MetricsRecorder.update s t).started = true) ∧
    (∀ (t : ℚ) (rest : List ℚ),
      (processFrames (t :: rest)).framesReceived = rest.length) := by
  constructor
  · intro s t h
    unfold MetricsRecorder.update
    simp only [h]
    simp
  · intro t rest
    have hbase : (MetricsRecorder.update RecorderState.base t).lastFrameTime.isSome := by
      unfold MetricsRecorder.update RecorderState.base
      simp
    have hcount := foldl_update_count rest (MetricsRecorder.update RecorderState.base t) hbase
    have hzero : (MetricsRecorder.update RecorderState.base t).framesReceived = 0 := rfl
    unfold processFrames
    rw [List.foldl_cons, hcount, hzero, Nat.zero_add]

/-- Claim C10 witness: the first frame fed to the fresh recorder leaves the
window frame counter at 0, and a three-frame sequence counts two frames. -/
theorem claim10_witness :
    RecorderState.base.lastFrameTime = none ∧
    (MetricsRecorder.update RecorderState.base 3).framesReceived =
      RecorderState.base.framesReceived ∧
    (processFrames [0, 1/100, 2/100]).framesReceived = 2 := by
  refine ⟨rfl, (claim10_first_frame_excluded.1 RecorderState.base 3 rfl).1, ?_⟩
  exact claim10_first_frame_excluded.2 0 [1/100, 2/100]

/-! Helper lemmas for stall-set monotonicity. -/

/-- One frame step preserves the relation between two monitors that differ
only in their stall threshold: the threshold-independent fields stay equal
and the higher-threshold stall set stays included in the lower-threshold
one. -/
theorem onFrame_step_subset (T1 T2 : ℚ) (hT : T1 ≤ T2) (s1 s2 : PMState) (t : ℚ)
    (hst : s1.startTime = s2.startTime) (hlt : s1.lastFrameTime = s2.lastFrameTime)
    (hfc : s1.frameCount = s2.frameCount)
    (hsub : ∀ e ∈ s2.stallEvents, e ∈ s1.stallEvents) :
    (PerformanceMonitor.onFrame T1 s1 t).startTime =
      (PerformanceMonitor.onFrame T2 s2 t).startTime ∧
    (PerformanceMonitor.onFrame T1 s1 t).lastFrameTime =
      (PerformanceMonitor.onFrame T2 s2 t).lastFrameTime ∧
    (PerformanceMonitor.onFrame T1 s1 t).frameCount =
      (PerformanceMonitor.onFrame T2 s2 t).frameCount ∧
    (∀ e ∈ (PerformanceMonitor.onFrame T2 s2 t).stallEvents,
      e ∈ (PerformanceMonitor.onFrame T1 s1 t).stallEvents) := by
  obtain ⟨st1, lt1, fc1, ev1⟩ := s1
  obtain ⟨st2, lt2, fc2, ev2⟩ := s2
  replace hst : st1 = st2 := hst
  replace hlt : lt1 = lt2 := hlt
  replace hfc : fc1 = fc2 := hfc
  replace hsub : ∀ e ∈ ev2, e ∈ ev1 := hsub
  subst hst
  subst hlt
  subst hfc
  cases lt1 with
  | none => exact ⟨rfl, rfl, rfl, hsub⟩
  | some u =>
      have key : ∀ (T : ℚ) (ev : List StallEvent),
          PerformanceMonitor.onFrame T ⟨st1, some u, fc1, ev⟩ t =
            if T < (t - u) * 1000 then
              ⟨st1, some t, fc1 + 1, ev ++ [⟨t - st1, (t - u) * 1000, fc1 + 1⟩]⟩
            else ⟨st1, some t, fc1 + 1, ev⟩ := by
        intro T ev
        simp only [PerformanceMonitor.onFrame]
      rw [key T1 ev1, key T2 ev2]
      by_cases hd2 : T2 < (t - u) * 1000
      · have hd1 : T1 < (t - u) * 1000 := lt_of_le_of_lt hT hd2
        rw [if_pos hd1, if_pos hd2]
        refine ⟨rfl, rfl, rfl, ?_⟩
        intro e he
        simp only [List.mem_append, List.mem_singleton] at he ⊢
        rcases he with he | he
        · exact Or.inl (hsub e he)
        · exact Or.inr he
      · rw [if_neg hd2]
        by_cases hd1 : T1 < (t - u) * 1000
        · rw [if_pos hd1]
          exact ⟨rfl, rfl, rfl, fun e he => List.mem_append_left _ (hsub e he)⟩
        · rw [if_neg hd1]
          exact ⟨rfl, rfl, rfl, hsub⟩

/-- Folding a frame sequence through the monitors preserves the inclusion of
the higher-threshold stall set in the lower-threshold one. -/
theorem foldl_onFrame_subset (T1 T2 : ℚ) (hT : T1 ≤ T2) :
    ∀ (times : List ℚ) (s1 s2 : PMState),
      s1.startTime = s2.startTime → s1.lastFrameTime = s2.lastFrameTime →
      s1.frameCount = s2.frameCount →
      (∀ e ∈ s2.stallEvents, e ∈ s1.stallEvents) →
      ∀ e ∈ (times.foldl (PerformanceMonitor.onFrame T2) s2).stallEvents,
        e ∈ (times.foldl (PerformanceMonitor.onFrame T1) s1).stallEvents := by
  intro times
  induction times with
  | nil => intro s1 s2 _ _ _ hsub; simpa using hsub
  | cons t rest ih =>
      intro s1 s2 hst hlt hfc hsub
      obtain ⟨h1, h2, h3, h4⟩ := onFrame_step_subset T1 T2 hT s1 s2 t hst hlt hfc hsub
      simpa using ih (PerformanceMonitor.onFrame T1 s1 t)
        (PerformanceMonitor.onFrame T2 s2 t) h1 h2 h3 h4

/-- Claim C9: stall classification is monotonic in the threshold — for any
frame-arrival sequence and thresholds T1 < T2, every stall event classified
under T2 is also classified under T1, so raising the threshold can only
shrink the stall set. -/
theorem claim9_stall_monotone (T1 T2 startTime : ℚ) (times : List ℚ) (hT : T1 < T2) :
    ∀ e ∈ stallSet T2 startTime times, e ∈ stallSet T1 startTime times := by
  unfold stallSet
  exact foldl_onFrame_subset T1 T2 (le_of_lt hT) times (PMState.base startTime)
    (PMState.base startTime) rfl rfl rfl (fun e he => he)

/-- Claim C9 witness: instantiation at thresholds 100 ms and 200 ms over a
two-frame sequence with a 300 ms gap. -/
theorem claim9_stall_monotone_witness :
    (100:ℚ) < 200 ∧
    ∀ e ∈ stallSet 200 0 [0, 3/10], e ∈ stallSet 100 0 [0, 3/10] :=
  ⟨by norm_num, claim9_stall_monotone 100 200 0 [0, 3/10] (by norm_num)⟩

end Cozard
